import Mathlib

/-!
Verification of the maestro repository (a project-automation command runner).

The development shallowly embeds the parts of `src/maestro/__main__.py` and
`src/maestro/pyprojecttoml.py` that the claims are about:

* a TOML document model (`Doc`, `TomlV`) with insertion-order preserving
  association lists, mirroring Python dict semantics (`d[k] = v` replaces in
  place, a new key is appended);
* the `pyproject ruff`, `pyproject isort` and `pyproject mypy` config-mutation
  commands, returning `Except PErr Doc` (an `.ok d` models the file being
  rewritten with `d`; an `.error e` models an uncaught exception, hence the
  backing file is never written).  The `ruff` command additionally returns an
  event trace (`Ev`) mirroring the order of its conflict-membership tests,
  in-memory key assignments and the final file write;
* the CLI commands `ruff`, `flake8`, `mypy`, `isort`, `test` of
  `__main__.py`, abstracted over a file-existence oracle `fs : String → Bool`;
  their result is an `Outcome`: either the argv handed to `run_command`,
  a plain return without spawning, or a raised `ValueError` message;
* `run_command` itself, as a function of the terminated child's exit status;
* the `linting` composite, as a fold over the statuses of its four steps.

Modelling notes (kept close to the source, deviations documented):
* Python raises `TypeError` when a non-dict value is indexed or assigned
  through; the embedding returns `PErr.typeError` as soon as a non-table value
  is reached on an accessed path (membership on a string value, which CPython
  would treat as a substring test before failing on the later item assignment,
  is subsumed into the same aborting outcome).
* The packaged flake8 default config path `Path(__file__).parent/cfg/flake8`
  is modelled by the abstract constant `flake8DefaultConfig`.
* `CONSOLE.file`, progress rendering and printed text are not modelled; only
  control flow, constructed argv lists, statuses and raised errors are.
-/

namespace Maestro

/-! ## TOML document model -/

/-- A TOML value as `toml.load` produces it: strings, integers, booleans,
arrays, and tables (Python dicts, modelled as insertion-ordered
association lists). -/
inductive TomlV where
  | str : String → TomlV
  | int : Int → TomlV
  | bool : Bool → TomlV
  | arr : List TomlV → TomlV
  | table : List (String × TomlV) → TomlV

/-- A loaded TOML document: the top-level table. -/
abbrev Doc := List (String × TomlV)

/-- Lookup of a key in a table, mirroring Python `d[k]` / `k in d`. -/
def getKey : Doc → String → Option TomlV
  | [], _ => none
  | (k', v) :: rest, k => if k' = k then some v else getKey rest k

/-- Python `k in d`. -/
def hasKey (d : Doc) (k : String) : Bool := (getKey d k).isSome

/-- Python `d[k] = v`: replace in place when the key exists, append otherwise. -/
def setKey : Doc → String → TomlV → Doc
  | [], k, v => [(k, v)]
  | (k', v') :: rest, k, v =>
      if k' = k then (k, v) :: rest else (k', v') :: setKey rest k v

/-- Descend through nested tables along a key path. -/
def getTableAt : Doc → List String → Option Doc
  | d, [] => some d
  | d, k :: rest =>
      match getKey d k with
      | some (.table t) => getTableAt t rest
      | _ => none

/-- Whether key `k` is present in the table at `path` (false when the path is
missing or not a table). -/
def keyPresentAt (d : Doc) (path : List String) (k : String) : Bool :=
  match getTableAt d path with
  | some t => hasKey t k
  | none => false

/-- The value of key `k` in the table at `path`. -/
def getValueAt (d : Doc) (path : List String) (k : String) : Option TomlV :=
  match getTableAt d path with
  | some t => getKey t k
  | none => none

/-! ## Errors and events of the pyproject config-mutation commands -/

/-- An uncaught Python exception of the config-mutation commands:
`ValueError` with its message, or a `TypeError` from indexing or assigning
through a non-dict value. -/
inductive PErr where
  | valueError : String → PErr
  | typeError : PErr
deriving Repr, DecidableEq

/-- Events of one run of the `pyproject ruff` command, in execution order:
`check sect k` is the conflict-membership test of key `k` at section `sect`,
`setk sect k` is the in-memory assignment of key `k` at section `sect`,
`persist` is the final `toml.dump` rewriting the backing file. -/
inductive Ev where
  | check : String → String → Ev
  | setk : String → String → Ev
  | persist : Ev
deriving Repr, DecidableEq

/-- Whether an event is an in-memory key assignment. -/
def Ev.isSetk : Ev → Bool
  | .setk _ _ => true
  | _ => false

/-- Whether an event is a conflict-membership test. -/
def Ev.isCheck : Ev → Bool
  | .check _ _ => true
  | _ => false

/-! ## pyprojecttoml.py: the ruff command -/

/-- The source's conflict message, e.g.
`'line-length' in 'tool.ruff' is already configured. Add -f to overwrite the
existing configuration.` -/
def ruffConflictMsg (sect k : String) : String :=
  "\x27" ++ k ++ "\x27 in \x27" ++ sect ++ "\x27 is already configured. " ++
    "Add -f to overwrite the existing configuration."

/-- Message of the missing-pyproject check shared by the three commands. -/
def missingPyprojectMsg : String := "The file \x27pyproject.toml\x27 doesn\x27t exists."

/-- The `tool.ruff.lint.select` list written by the ruff command
(pyprojecttoml.py lines 57-111; commented-out entries omitted as in the
source). -/
def ruffSelectVal : TomlV := .arr (
  ["F", "E", "W", "N", "UP", "YTT", "ANN", "BLE", "B", "A", "COM", "C4",
   "T10", "EM", "EXE", "ISC", "ICN", "LOG", "G", "INP", "PIE", "T20", "PYI",
   "PT", "Q", "RSE", "RET", "SLOT", "SLF", "SIM", "TID", "TCH", "INT", "ARG",
   "PTH", "TD", "PD", "PGH", "PL", "TRY", "FLY", "NPY", "PERF", "FURB",
   "RUF"].map .str)

/-- The `tool.ruff.lint.ignore` list written by the ruff command
(pyprojecttoml.py lines 112-140). -/
def ruffIgnoreVal : TomlV := .arr (
  ["ANN401", "ARG001", "ARG002", "COM812", "EM101", "PD011", "PLC1901",
   "PLR0911", "PLR0912", "PLR0913", "PLR0915", "PLR2004", "PTH123", "RET501",
   "RET505", "RET506", "SIM108", "SIM116", "TD002", "TD003", "TC001",
   "TC002", "TC003", "TRY002", "TRY003", "UP006", "UP007"].map .str)

/-- The conflict checks on the `tool.ruff` keys (pyprojecttoml.py lines
29-39), run against the `tool` table. -/
def checkRuffKeys (forced : Bool) (tool0 : Doc) : Except PErr Unit × List Ev :=
  if !forced && hasKey tool0 "ruff" then
    match getKey tool0 "ruff" with
    | some (.table rt) =>
      if hasKey rt "target-version" then
        (.error (.valueError (ruffConflictMsg "tool.ruff" "target-version")),
         [.check "tool.ruff" "target-version"])
      else if hasKey rt "line-length" then
        (.error (.valueError (ruffConflictMsg "tool.ruff" "line-length")),
         [.check "tool.ruff" "target-version", .check "tool.ruff" "line-length"])
      else
        (.ok (),
         [.check "tool.ruff" "target-version", .check "tool.ruff" "line-length"])
    | _ => (.error .typeError, [])
  else (.ok (), [])

/-- The conflict checks on the `tool.ruff.lint` keys (pyprojecttoml.py lines
44-54), run against the `tool.ruff` table as it stands after the
`target-version` and `line-length` assignments. -/
def checkLintKeys (forced : Bool) (rt1 : Doc) : Except PErr Unit × List Ev :=
  if !forced && hasKey rt1 "lint" then
    match getKey rt1 "lint" with
    | some (.table lt) =>
      if hasKey lt "select" then
        (.error (.valueError (ruffConflictMsg "tool.ruff.lint" "select")),
         [.check "tool.ruff.lint" "select"])
      else if hasKey lt "ignore" then
        (.error (.valueError (ruffConflictMsg "tool.ruff.lint" "ignore")),
         [.check "tool.ruff.lint" "select", .check "tool.ruff.lint" "ignore"])
      else
        (.ok (),
         [.check "tool.ruff.lint" "select", .check "tool.ruff.lint" "ignore"])
    | _ => (.error .typeError, [])
  else (.ok (), [])

/-- The `pyproject ruff` command (pyprojecttoml.py lines 16-142).  `file` is
the content of `pyproject.toml` (`none` when the file does not exist).  The
first component is the command's outcome (`.ok d` = the file is rewritten
with `d`); the second is the trace of conflict checks, in-memory key
assignments and the final write, in source order. -/
def ruffApply (forced : Bool) (file : Option Doc) : Except PErr Doc × List Ev :=
  match file with
  | none => (.error (.valueError missingPyprojectMsg), [])
  | some doc0 =>
    let doc1 := if hasKey doc0 "tool" then doc0 else setKey doc0 "tool" (.table [])
    match getKey doc1 "tool" with
    | some (.table tool0) =>
      match checkRuffKeys forced tool0 with
      | (.error e, tr) => (.error e, tr)
      | (.ok _, tr1) =>
        let tool1 := if hasKey tool0 "ruff" then tool0 else setKey tool0 "ruff" (.table [])
        match getKey tool1 "ruff" with
        | some (.table rt0) =>
          let rt1 := setKey (setKey rt0 "target-version" (.str "py37")) "line-length" (.int 95)
          let tr2 := tr1 ++ [.setk "tool.ruff" "target-version", .setk "tool.ruff" "line-length"]
          match checkLintKeys forced rt1 with
          | (.error e, tr) => (.error e, tr2 ++ tr)
          | (.ok _, trL) =>
            let rt2 := if hasKey rt1 "lint" then rt1 else setKey rt1 "lint" (.table [])
            match getKey rt2 "lint" with
            | some (.table lt0) =>
              let lt1 := setKey (setKey lt0 "select" ruffSelectVal) "ignore" ruffIgnoreVal
              let rt3 := setKey rt2 "lint" (.table lt1)
              let tool2 := setKey tool1 "ruff" (.table rt3)
              let doc2 := setKey doc1 "tool" (.table tool2)
              (.ok doc2,
               tr2 ++ trL ++
                 [.setk "tool.ruff.lint" "select", .setk "tool.ruff.lint" "ignore", .persist])
            | _ => (.error .typeError, tr2 ++ trL)
        | _ => (.error .typeError, tr1)
    | _ => (.error .typeError, [])

/-- The content of `pyproject.toml` after a `pyproject ruff` run: the dumped
document on success, the untouched prior content on any raised error. -/
def ruffPersisted (forced : Bool) (file : Option Doc) : Option Doc :=
  match (ruffApply forced file).1 with
  | .ok d => some d
  | .error _ => file

/-! ## pyprojecttoml.py: the isort command -/

/-- The `tool.isort` table written by the isort command
(pyprojecttoml.py lines 164-172). -/
def isortVal : TomlV := .table
  [("sections", .str "LOCALFOLDER,FIRSTPARTY,THIRDPARTY,STDLIB,FUTURE"),
   ("multi_line_output", .int 3),
   ("line_length", .int 95),
   ("use_parentheses", .bool true),
   ("include_trailing_comma", .bool true),
   ("force_grid_wrap", .int 0),
   ("ensure_newline_before_comments", .bool true)]

/-- The source's isort conflict message. -/
def isortConflictMsg : String :=
  "tool.isort is already configured. Add -f to overwrite the existing configuration."

/-- The `pyproject isort` command (pyprojecttoml.py lines 145-174). -/
def isortApply (forced : Bool) (file : Option Doc) : Except PErr Doc :=
  match file with
  | none => .error (.valueError missingPyprojectMsg)
  | some doc0 =>
    let doc1 := if hasKey doc0 "tool" then doc0 else setKey doc0 "tool" (.table [])
    match getKey doc1 "tool" with
    | some (.table tool0) =>
      if !forced && hasKey tool0 "isort" then
        .error (.valueError isortConflictMsg)
      else
        .ok (setKey doc1 "tool" (.table (setKey tool0 "isort" isortVal)))
    | _ => .error .typeError

/-- The content of `pyproject.toml` after a `pyproject isort` run. -/
def isortPersisted (forced : Bool) (file : Option Doc) : Option Doc :=
  match isortApply forced file with
  | .ok d => some d
  | .error _ => file

/-! ## pyprojecttoml.py: the mypy command -/

/-- The source's mypy conflict message (used by both of its conflict checks,
including the one on `tool.overrides`). -/
def mypyConflictMsg : String := "tool.mypy is already configured."

/-- The `tool.mypy.overrides` value written by the mypy command
(pyprojecttoml.py lines 194-199). -/
def mypyOverridesVal : TomlV := .arr
  [.table [("module", .arr [.str "importlib_metadata.*"]),
           ("ignore_missing_imports", .bool true)]]

/-- The `pyproject mypy` command (pyprojecttoml.py lines 177-201).  It takes
no `forced` flag.  Note that its second conflict check tests `overrides` on
the top-level `tool` table, not on `tool.mypy`. -/
def mypyApply (file : Option Doc) : Except PErr Doc :=
  match file with
  | none => .error (.valueError missingPyprojectMsg)
  | some doc0 =>
    let doc1 := if hasKey doc0 "tool" then doc0 else setKey doc0 "tool" (.table [])
    match getKey doc1 "tool" with
    | some (.table tool0) =>
      if hasKey tool0 "mypy" then
        .error (.valueError mypyConflictMsg)
      else
        let tool1 := setKey tool0 "mypy" (.table [])
        if hasKey tool1 "overrides" then
          .error (.valueError mypyConflictMsg)
        else
          match getKey tool1 "mypy" with
          | some (.table mt) =>
            .ok (setKey doc1 "tool"
              (.table (setKey tool1 "mypy" (.table (setKey mt "overrides" mypyOverridesVal)))))
          | _ => .error .typeError
    | _ => .error .typeError

/-- The content of `pyproject.toml` after a `pyproject mypy` run. -/
def mypyPersisted (file : Option Doc) : Option Doc :=
  match mypyApply file with
  | .ok d => some d
  | .error _ => file

/-! ## __main__.py: run_command -/

/-- The observable outcome of `run_command` (__main__.py lines 27-50) as a
function of the terminated child's exit status (`sp.run` blocks until the
child exits; its status is therefore an input here).  `.ok s` models a plain
return of `s`; `.error s` models `raise typer.Exit(s)`. -/
def runCommand (withExit : Bool) (returncode : Int) : Except Int Int :=
  if withExit && returncode != 0 then .error returncode else .ok returncode

/-- The status carried by a `run_command` outcome, whether returned or
carried by the raised `typer.Exit`. -/
def carriedStatus : Except Int Int → Int
  | .ok s => s
  | .error s => s

/-! ## __main__.py: the process-backed CLI commands

Each command is modelled up to the point where it either raises a
`ValueError`, returns without spawning, or hands a fully built argv to
`run_command`.  File-system queries (`Path(...).exists()`) are abstracted by
an oracle `fs : String → Bool`. -/

/-- The outcome of one CLI command: the argv handed to `run_command`, a
return without spawning any process, or a raised `ValueError` (a read of a
missing file is also folded into `.err`). -/
inductive Outcome where
  | ran : List String → Outcome
  | returned : Int → Outcome
  | err : String → Outcome
deriving Repr, DecidableEq

/-- Whether the outcome is a raised error. -/
def Outcome.isErr : Outcome → Bool
  | .err _ => true
  | _ => false

/-- Whether the outcome reached `run_command`. -/
def Outcome.isRan : Outcome → Bool
  | .ran _ => true
  | _ => false

/-- The source's missing-config message, e.g. `The file pyproject.toml
doesn't exist` (an f-string over the path). -/
def missingFileMsg (p : String) : String := "The file " ++ p ++ " doesn\x27t exist"

/-- Message modelling the `FileNotFoundError` CPython raises when
`read_text()` is called on a missing file. -/
def readTextErrMsg (p : String) : String :=
  "[Errno 2] No such file or directory: " ++ p

/-- The `ruff` CLI command (__main__.py lines 59-98), for Python >= 3.7.
Note the config-existence check precedes the `show_config` branch, and the
`show_config` branch re-reads the default config file. -/
def ruffCli (fix : Bool) (config : Option String) (showConfig : Bool)
    (fs : String → Bool) : Outcome :=
  let defaultConfig := "pyproject.toml"
  let cfg := config.getD defaultConfig
  if fs cfg then
    let cmd := ["ruff", "check", "--config", cfg]
    let cmd := if fix then cmd ++ ["--fix"] else cmd
    let cmd := cmd ++ ["src"]
    let cmd := if fs "tests" then cmd ++ ["tests"] else cmd
    if showConfig then
      if fs defaultConfig then .returned 0 else .err (readTextErrMsg defaultConfig)
    else .ran cmd
  else .err (missingFileMsg cfg)

/-- The packaged flake8 default config `Path(__file__).parent/cfg/flake8`,
modelled as an abstract path constant. -/
def flake8DefaultConfig : String := "maestro/cfg/flake8"

/-- The `flake8` CLI command (__main__.py lines 101-144).  Note the
`show_default_config` branch returns 0 before any config-existence check. -/
def flake8Cli (config : Option String) (appendConfig : Option String)
    (showDefaultConfig : Bool) (fs : String → Bool) : Outcome :=
  if showDefaultConfig then
    if fs flake8DefaultConfig then .returned 0
    else .err (readTextErrMsg flake8DefaultConfig)
  else
    let cfg := config.getD flake8DefaultConfig
    if fs cfg then
      let cmd := ["flake8", "--config", cfg]
      let app := appendConfig.getD "setup.cfg"
      if fs app then .ran (cmd ++ ["--append-config", app] ++ ["src", "tests"])
      else .err (missingFileMsg app)
    else .err (missingFileMsg cfg)

/-- The QtPy flag block of the `mypy` CLI command (__main__.py lines
188-215). -/
def mypyQtFlags (pyqt6 pyside2 pyside6 : Bool) : List String :=
  if pyqt6 then
    ["--always-false=PYQT5", "--always-true=PYQT6",
     "--always-false=PYSIDE2", "--always-false=PYSIDE6"]
  else if pyside2 then
    ["--always-false=PYQT5", "--always-false=PYQT6",
     "--always-true=PYSIDE2", "--always-false=PYSIDE6"]
  else if pyside6 then
    ["--always-false=PYQT5", "--always-false=PYQT6",
     "--always-false=PYSIDE2", "--always-true=PYSIDE6"]
  else
    ["--always-true=PYQT5", "--always-false=PYQT6",
     "--always-false=PYSIDE2", "--always-false=PYSIDE6"]

/-- The `mypy` CLI command (__main__.py lines 147-226), for Python >= 3.7
(default config `pyproject.toml`).  `testsHasPy` models
`next(Path("tests").glob("**/*.py"), None) is not None`.  The `pyqt5` option
exists in the source signature but is never read (the trailing else covers
it); it is kept here unused for fidelity. -/
def mypyCli (configFile : Option String) (strict : Option Bool)
    (pyqt5 pyqt6 pyside2 pyside6 : Bool) (fileOrDir : Option (List String))
    (fs : String → Bool) (testsHasPy : Bool) : Outcome :=
  let _ := pyqt5
  let cfg := configFile.getD "pyproject.toml"
  if fs cfg then
    let cmd := ["mypy", "--config-file", cfg, "--pretty", "--warn-unused-configs"]
    let cmd := if strict.isSome then cmd ++ ["--strict"] else cmd
    let cmd := cmd ++ mypyQtFlags pyqt6 pyside2 pyside6
    match fileOrDir with
    | none =>
      if fs "src" then
        let cmd := cmd ++ ["src"]
        .ran (if testsHasPy then cmd ++ ["tests"] else cmd)
      else .err "No \x27src\x27 folder found."
    | some files => .ran (cmd ++ files)
  else .err (missingFileMsg cfg)

/-- The `isort` CLI command (__main__.py lines 250-292), up to the point
where `run_command` is reached (its `with_exit=False` post-processing
re-raises any nonzero status as `typer.Exit`, which does not affect the
outcome modelled here). -/
def isortCli (check : Bool) (config : Option String) (showConfig : Bool)
    (fs : String → Bool) : Outcome :=
  let defaultConfig := "pyproject.toml"
  let cfg := config.getD defaultConfig
  if fs cfg then
    let cmd := ["isort", "--settings-file", cfg]
    let cmd := if check then cmd ++ ["--check"] else cmd
    if fs "src" then
      let cmd := cmd ++ ["src"]
      let cmd := if fs "tests" then cmd ++ ["tests"] else cmd
      if showConfig then
        if fs defaultConfig then .returned 0 else .err (readTextErrMsg defaultConfig)
      else .ran cmd
    else .err "No \x27src\x27 folder found."
  else .err (missingFileMsg cfg)

/-! ## __main__.py: the test command -/

/-- A coverage-report choice of the `test` command (`CoverageReport`). -/
inductive CovReport where
  | xml
  | html
deriving Repr, DecidableEq

/-- `str(CoverageReport.X)`. -/
def CovReport.toStr : CovReport → String
  | .xml => "xml"
  | .html => "html"

/-- A `--cov-only` path value together with the file system's answer to its
`is_file()` query: `parts` is `pathlib.Path.parts` (POSIX, relative). -/
structure CovPath where
  parts : List String
  isFile : Bool
deriving Repr, DecidableEq

/-- `str(Path(*parts))` on POSIX: `.` for no parts, otherwise the parts
joined by `/`. -/
def joinParts (parts : List String) : String :=
  if parts.isEmpty then "." else String.intercalate "/" parts

/-- The module-path rewrite of a `--cov-only` file argument (__main__.py
lines 404-411): drop the first path component, then the source's chain of
global string replacements. -/
def covImport (p : CovPath) : String :=
  (((((joinParts (p.parts.drop 1)).replace "//" ".").replace "\\\\" ".").replace
      "/" ".").replace "\\" ".").replace ".py" ""

/-- The `--cov=...` argument contributed by one `--cov-only` path
(__main__.py lines 402-414). -/
def covOnlyArg (p : CovPath) : String :=
  if p.isFile then "--cov=" ++ covImport p else "--cov=" ++ joinParts p.parts

/-- The coverage block of the `test` command (__main__.py lines 398-420),
as the segment it appends to the argv.  The branch structure is the
source's: when `coverage` or `coverage_report` is given, `--cov=src` is
added and the `coverage_only` branch is dead. -/
def testSegCov (coverage : Bool) (coverageReport : Option (List CovReport))
    (coverageOnly : Option (List CovPath)) : List String :=
  if coverage || coverageReport.isSome || coverageOnly.isSome then
    (if coverage || coverageReport.isSome then
      ["--cov=src", "--cov-report=term-missing:skip-covered"]
     else
      match coverageOnly with
      | some covs => covs.map covOnlyArg ++ ["--cov-report=term-missing:skip-covered"]
      | none => []) ++
    (match coverageReport with
     | some reps =>
       (if (reps.map CovReport.toStr).contains "xml" then
          ["--cov-report=xml", "--junitxml=report.xml"] else []) ++
       (if (reps.map CovReport.toStr).contains "html" then
          ["--cov-report=html"] else [])
     | none => [])
  else []

/-- The argv built by the `test` CLI command (__main__.py lines 349-425).
Each conditional `cmd += [...]` of the source is the corresponding segment
here (an omitted block contributes the empty segment). -/
def testCmd (fileOrDir : Option (List String)) (parallel onlyFailed coverage : Bool)
    (coverageReport : Option (List CovReport))
    (coverageOnly : Option (List CovPath)) : List String :=
  ["pytest", "-vv"] ++
  (if parallel then ["-n", "auto", "--dist", "loadfile"] else []) ++
  (if onlyFailed then ["--lf"] else []) ++
  testSegCov coverage coverageReport coverageOnly ++
  (match fileOrDir with
   | none => ["tests"]
   | some files => files)

/-- The `test` CLI command: it always reaches `run_command` with the built
argv. -/
def testCli (fileOrDir : Option (List String)) (parallel onlyFailed coverage : Bool)
    (coverageReport : Option (List CovReport))
    (coverageOnly : Option (List CovPath)) : Outcome :=
  .ran (testCmd fileOrDir parallel onlyFailed coverage coverageReport coverageOnly)

/-! ## __main__.py: the linting composite -/

/-- The loop body of the `linting` command (__main__.py lines 311-323) over
a list of (step name, step status) pairs: each linting function is
abstracted by the status it yields (its return value, or the exit code of
the `typer.Exit` it raises, which `linting` catches).  Returns the list of
executed step names and the final `return_code`: a step with status 0
advances the loop, a nonzero status breaks out of it. -/
def runLinting : List (String × Int) → List String × Int
  | [] => ([], 0)
  | (n, s) :: rest =>
      if s = 0 then
        let r := runLinting rest
        (n :: r.1, r.2)
      else ([n], s)

/-- The registered step order of `linting` for Python >= 3.7
(__main__.py line 308). -/
def lintingNames : List String := ["black", "isort", "ruff", "mypy"]

/-- The `linting` composite (__main__.py lines 295-332) given the statuses
of its four steps: the executed step names and the aggregate status (returned
when 0, raised as `typer.Exit` otherwise — either way the observable
aggregate status). -/
def lintingCli (b i r m : Int) : List String × Int :=
  runLinting [("black", b), ("isort", i), ("ruff", r), ("mypy", m)]

/-! ## Shared lemmas about the document model -/

/-- Setting then reading the same key yields the written value. -/
theorem getKey_setKey_self (d : Doc) (k : String) (v : TomlV) :
    getKey (setKey d k v) k = some v := by
  induction d with
  | nil => simp [setKey, getKey]
  | cons p rest ih =>
    obtain ⟨k0, v0⟩ := p
    by_cases h : k0 = k
    · simp [setKey, h, getKey]
    · simp [setKey, h, getKey, ih]

/-- Setting one key leaves every other key unchanged. -/
theorem getKey_setKey_ne (d : Doc) (k k' : String) (v : TomlV) (h : k' ≠ k) :
    getKey (setKey d k v) k' = getKey d k' := by
  induction d with
  | nil => simp [setKey, getKey, Ne.symm h]
  | cons p rest ih =>
    obtain ⟨k0, v0⟩ := p
    by_cases h0 : k0 = k
    · subst h0
      simp [setKey, getKey, Ne.symm h]
    · simp only [setKey, if_neg h0, getKey]
      by_cases h1 : k0 = k'
      · simp [h1]
      · simp [h1, ih]

/-- Key presence is preserved by writes to other keys. -/
theorem hasKey_setKey_ne (d : Doc) (k k' : String) (v : TomlV) (h : k' ≠ k) :
    hasKey (setKey d k v) k' = hasKey d k' := by
  simp [hasKey, getKey_setKey_ne d k k' v h]

/-- Key presence below a table-valued key equals presence in that table. -/
theorem keyPresentAt_cons (d : Doc) (k0 : String) (t : Doc) (path : List String)
    (k : String) (hg : getKey d k0 = some (.table t)) :
    keyPresentAt d (k0 :: path) k = keyPresentAt t path k := by
  have hstep : getTableAt d (k0 :: path) = getTableAt t path := by
    simp only [getTableAt, hg]
  unfold keyPresentAt
  rw [hstep]

/-- Key presence at the empty path is plain key presence. -/
theorem keyPresentAt_nil (d : Doc) (k : String) :
    keyPresentAt d [] k = hasKey d k := rfl

/-- A key present below `k0` forces a table at `k0`. -/
theorem keyPresentAt_cons_elim (d : Doc) (k0 : String) (path : List String)
    (k : String) (h : keyPresentAt d (k0 :: path) k = true) :
    ∃ t, getKey d k0 = some (.table t) ∧ keyPresentAt t path k = true := by
  unfold keyPresentAt getTableAt at h
  cases hg : getKey d k0 with
  | none => rw [hg] at h; simp at h
  | some v =>
    rw [hg] at h
    cases v with
    | str s => simp at h
    | int n => simp at h
    | bool b => simp at h
    | arr l => simp at h
    | table t => exact ⟨t, rfl, h⟩

/-- Whether the value at `tool.ruff.lint`, when present, is a table: a
non-table value there makes the Python ruff command index or assign through
a non-dict (a `TypeError`), which the embedding reports as
`PErr.typeError`. -/
def ruffLintWellTyped (d : Doc) : Bool :=
  match getValueAt d ["tool", "ruff"] "lint" with
  | none => true
  | some (.table _) => true
  | some _ => false

/-! ## C1 and C2: the linting composite -/

/-- C1: for every run of the `linting` composite over its ordered steps
(black, isort, ruff, mypy) in which step `k` (1-indexed) is the first to
yield a nonzero status, steps 1..k execute, steps k+1..4 never execute, and
the aggregate status is step k's status. -/
theorem linting_first_failure_short_circuits (b i r m : Int) (k : Nat)
    (hk1 : 1 ≤ k) (hk4 : k ≤ 4)
    (hzero : ∀ j, j + 1 < k → [b, i, r, m].getD j 1 = 0)
    (hfail : [b, i, r, m].getD (k - 1) 0 ≠ 0) :
    (lintingCli b i r m).1 = lintingNames.take k ∧
    (lintingCli b i r m).2 = [b, i, r, m].getD (k - 1) 0 := by
  interval_cases k
  · have hb : b ≠ 0 := by simpa using hfail
    simp [lintingCli, runLinting, lintingNames, hb]
  · have hb : b = 0 := by simpa using hzero 0 (by omega)
    have hi : i ≠ 0 := by simpa using hfail
    simp [lintingCli, runLinting, lintingNames, hb, hi]
  · have hb : b = 0 := by simpa using hzero 0 (by omega)
    have hi : i = 0 := by simpa using hzero 1 (by omega)
    have hr : r ≠ 0 := by simpa using hfail
    simp [lintingCli, runLinting, lintingNames, hb, hi, hr]
  · have hb : b = 0 := by simpa using hzero 0 (by omega)
    have hi : i = 0 := by simpa using hzero 1 (by omega)
    have hr : r = 0 := by simpa using hzero 2 (by omega)
    have hm : m ≠ 0 := by simpa using hfail
    simp [lintingCli, runLinting, lintingNames, hb, hi, hr, hm]

/-- Witness for C1, the spec's own scenario: steps [0, 0, 1, 0] execute
black, isort, ruff only and aggregate to ruff's status 1. -/
theorem linting_first_failure_short_circuits_scenario :
    (lintingCli 0 0 1 0).1 = lintingNames.take 3 ∧
    (lintingCli 0 0 1 0).2 = [(0 : Int), 0, 1, 0].getD (3 - 1) 0 :=
  linting_first_failure_short_circuits 0 0 1 0 3 (by decide) (by decide)
    (by intro j hj; rcases j with _ | _ | j
        · rfl
        · rfl
        · omega) (by decide)

/-- C2: for every run of the `linting` composite in which all four steps
yield status 0, the composite yields status 0 and each step executes exactly
once, in registration order (black, isort, ruff, mypy). -/
theorem linting_all_success_runs_all (b i r m : Int)
    (hb : b = 0) (hi : i = 0) (hr : r = 0) (hm : m = 0) :
    lintingCli b i r m = (lintingNames, 0) := by
  subst hb hi hr hm
  rfl

/-- Witness for C2 at the all-zero statuses. -/
theorem linting_all_success_runs_all_concrete :
    lintingCli 0 0 0 0 = (lintingNames, 0) :=
  linting_all_success_runs_all 0 0 0 0 rfl rfl rfl rfl

/-! ## C3: config mutation refuses to overwrite without force -/

/-- The (target section path, dotted section name, key) triples whose
presence the ruff command treats as a conflict. -/
def ruffTargets : List (List String × String × String) :=
  [(["tool", "ruff"], "tool.ruff", "target-version"),
   (["tool", "ruff"], "tool.ruff", "line-length"),
   (["tool", "ruff", "lint"], "tool.ruff.lint", "select"),
   (["tool", "ruff", "lint"], "tool.ruff.lint", "ignore")]

/-- Document refuting the forced=true half of C3 as stated: `tool.ruff`
already carries the target key `target-version`, but `tool.ruff.lint` holds
a string. -/
def c3CexDoc : Doc :=
  [("tool", .table [("ruff", .table
      [("target-version", .str "py38"), ("lint", .str "x")])])]

/-- C3 counterexample: on `c3CexDoc` the claim's hypothesis holds (the
target key `target-version` is present at `tool.ruff`), yet the ruff call
with forced=true does not overwrite it: line 57 of pyprojecttoml.py assigns
through the string at `tool.ruff.lint` and raises `TypeError`, the backing
file is never written, and the prior value of the key survives. -/
theorem ruff_forced_overwrite_fails_on_nontable_lint :
    keyPresentAt c3CexDoc ["tool", "ruff"] "target-version" = true ∧
    (ruffApply true (some c3CexDoc)).1 = .error .typeError ∧
    ruffPersisted true (some c3CexDoc) = some c3CexDoc ∧
    getValueAt c3CexDoc ["tool", "ruff"] "target-version" = some (.str "py38") :=
  ⟨rfl, rfl, rfl, rfl⟩

/-- C3 amended: a `pyproject ruff` or `pyproject isort` run with
forced=false on a document already containing one of the call's target keys
at its target section fails with a conflict `ValueError` naming a
conflicting section and key, and the persisted document is left unchanged;
the same call with forced=true succeeds and overwrites the keys with the
new configuration, provided (for ruff) that the pre-existing
`tool.ruff.lint` value, if any, is a table — when it is a non-table value
the forced ruff call instead aborts with a `TypeError` and writes nothing,
per the counterexample. -/
theorem config_conflict_requires_force (docR docI : Doc)
    (hconfR : keyPresentAt docR ["tool", "ruff"] "target-version" = true ∨
              keyPresentAt docR ["tool", "ruff"] "line-length" = true ∨
              keyPresentAt docR ["tool", "ruff", "lint"] "select" = true ∨
              keyPresentAt docR ["tool", "ruff", "lint"] "ignore" = true)
    (hconfI : keyPresentAt docI ["tool"] "isort" = true) :
    (∃ path sect k, (path, sect, k) ∈ ruffTargets ∧
       keyPresentAt docR path k = true ∧
       (ruffApply false (some docR)).1 =
         .error (.valueError (ruffConflictMsg sect k))) ∧
    ruffPersisted false (some docR) = some docR ∧
    (ruffLintWellTyped docR = true →
      ∃ d, (ruffApply true (some docR)).1 = .ok d ∧
        getValueAt d ["tool", "ruff"] "target-version" = some (.str "py37") ∧
        getValueAt d ["tool", "ruff"] "line-length" = some (.int 95) ∧
        getValueAt d ["tool", "ruff", "lint"] "select" = some ruffSelectVal ∧
        getValueAt d ["tool", "ruff", "lint"] "ignore" = some ruffIgnoreVal) ∧
    isortApply false (some docI) = .error (.valueError isortConflictMsg) ∧
    isortPersisted false (some docI) = some docI ∧
    (∃ d, isortApply true (some docI) = .ok d ∧
       getValueAt d ["tool"] "isort" = some isortVal) := by
  obtain ⟨t, hTool, rt, hRuff, hIn⟩ :
      ∃ t, getKey docR "tool" = some (.table t) ∧
      ∃ rt, getKey t "ruff" = some (.table rt) ∧
        (hasKey rt "target-version" = true ∨ hasKey rt "line-length" = true ∨
         ∃ lt, getKey rt "lint" = some (.table lt) ∧
           (hasKey lt "select" = true ∨ hasKey lt "ignore" = true)) := by
    rcases hconfR with h | h | h | h
    · obtain ⟨t, hTool, h⟩ := keyPresentAt_cons_elim _ _ _ _ h
      obtain ⟨rt, hRuff, h⟩ := keyPresentAt_cons_elim _ _ _ _ h
      rw [keyPresentAt_nil] at h
      exact ⟨t, hTool, rt, hRuff, Or.inl h⟩
    · obtain ⟨t, hTool, h⟩ := keyPresentAt_cons_elim _ _ _ _ h
      obtain ⟨rt, hRuff, h⟩ := keyPresentAt_cons_elim _ _ _ _ h
      rw [keyPresentAt_nil] at h
      exact ⟨t, hTool, rt, hRuff, Or.inr (Or.inl h)⟩
    · obtain ⟨t, hTool, h⟩ := keyPresentAt_cons_elim _ _ _ _ h
      obtain ⟨rt, hRuff, h⟩ := keyPresentAt_cons_elim _ _ _ _ h
      obtain ⟨lt, hLint, h⟩ := keyPresentAt_cons_elim _ _ _ _ h
      rw [keyPresentAt_nil] at h
      exact ⟨t, hTool, rt, hRuff, Or.inr (Or.inr ⟨lt, hLint, Or.inl h⟩)⟩
    · obtain ⟨t, hTool, h⟩ := keyPresentAt_cons_elim _ _ _ _ h
      obtain ⟨rt, hRuff, h⟩ := keyPresentAt_cons_elim _ _ _ _ h
      obtain ⟨lt, hLint, h⟩ := keyPresentAt_cons_elim _ _ _ _ h
      rw [keyPresentAt_nil] at h
      exact ⟨t, hTool, rt, hRuff, Or.inr (Or.inr ⟨lt, hLint, Or.inr h⟩)⟩
  have hHasTool : hasKey docR "tool" = true := by simp [hasKey, hTool]
  have hHasRuff : hasKey t "ruff" = true := by simp [hasKey, hRuff]
  have hErr : ∃ path sect k, (path, sect, k) ∈ ruffTargets ∧
      keyPresentAt docR path k = true ∧
      (ruffApply false (some docR)).1 =
        .error (.valueError (ruffConflictMsg sect k)) := by
    cases htv : hasKey rt "target-version" with
    | true =>
      refine ⟨["tool", "ruff"], "tool.ruff", "target-version", by decide, ?_, ?_⟩
      · rw [keyPresentAt_cons _ _ _ _ _ hTool, keyPresentAt_cons _ _ _ _ _ hRuff,
          keyPresentAt_nil]
        exact htv
      · simp [ruffApply, checkRuffKeys, checkLintKeys, hHasTool, hTool, hHasRuff, hRuff, htv]
    | false =>
      cases hll : hasKey rt "line-length" with
      | true =>
        refine ⟨["tool", "ruff"], "tool.ruff", "line-length", by decide, ?_, ?_⟩
        · rw [keyPresentAt_cons _ _ _ _ _ hTool, keyPresentAt_cons _ _ _ _ _ hRuff,
            keyPresentAt_nil]
          exact hll
        · simp [ruffApply, checkRuffKeys, checkLintKeys, hHasTool, hTool, hHasRuff, hRuff, htv, hll]
      | false =>
        obtain ⟨lt, hLint, hsi⟩ :
            ∃ lt, getKey rt "lint" = some (.table lt) ∧
              (hasKey lt "select" = true ∨ hasKey lt "ignore" = true) := by
          rcases hIn with h | h | h
          · rw [htv] at h; simp at h
          · rw [hll] at h; simp at h
          · exact h
        have hL1 : getKey (setKey (setKey rt "target-version" (.str "py37"))
            "line-length" (.int 95)) "lint" = some (.table lt) := by
          rw [getKey_setKey_ne _ _ _ _ (by decide), getKey_setKey_ne _ _ _ _ (by decide)]
          exact hLint
        have hHasL1 : hasKey (setKey (setKey rt "target-version" (.str "py37"))
            "line-length" (.int 95)) "lint" = true := by
          simp [hasKey, hL1]
        cases hsel : hasKey lt "select" with
        | true =>
          refine ⟨["tool", "ruff", "lint"], "tool.ruff.lint", "select", by decide, ?_, ?_⟩
          · rw [keyPresentAt_cons _ _ _ _ _ hTool, keyPresentAt_cons _ _ _ _ _ hRuff,
              keyPresentAt_cons _ _ _ _ _ hLint, keyPresentAt_nil]
            exact hsel
          · simp [ruffApply, checkRuffKeys, checkLintKeys, hHasTool, hTool, hHasRuff, hRuff, htv, hll, hL1, hHasL1, hsel]
        | false =>
          have hign : hasKey lt "ignore" = true := by
            rcases hsi with h | h
            · rw [hsel] at h; simp at h
            · exact h
          refine ⟨["tool", "ruff", "lint"], "tool.ruff.lint", "ignore", by decide, ?_, ?_⟩
          · rw [keyPresentAt_cons _ _ _ _ _ hTool, keyPresentAt_cons _ _ _ _ _ hRuff,
              keyPresentAt_cons _ _ _ _ _ hLint, keyPresentAt_nil]
            exact hign
          · simp [ruffApply, checkRuffKeys, checkLintKeys, hHasTool, hTool, hHasRuff, hRuff, htv, hll, hL1, hHasL1,
              hsel, hign]
  have hPersist : ruffPersisted false (some docR) = some docR := by
    obtain ⟨path, sect, k, _, _, hres⟩ := hErr
    simp [ruffPersisted, hres]
  have hvlint : getValueAt docR ["tool", "ruff"] "lint" = getKey rt "lint" := by
    simp [getValueAt, getTableAt, hTool, hRuff]
  have hFor : ruffLintWellTyped docR = true →
      ∃ d, (ruffApply true (some docR)).1 = .ok d ∧
      getValueAt d ["tool", "ruff"] "target-version" = some (.str "py37") ∧
      getValueAt d ["tool", "ruff"] "line-length" = some (.int 95) ∧
      getValueAt d ["tool", "ruff", "lint"] "select" = some ruffSelectVal ∧
      getValueAt d ["tool", "ruff", "lint"] "ignore" = some ruffIgnoreVal := by
    intro hwfR
    have hwfLint : (match getKey rt "lint" with
        | none => true
        | some (.table _) => true
        | some _ => false) = true := by
      unfold ruffLintWellTyped at hwfR
      rw [hvlint] at hwfR
      exact hwfR
    cases hL : getKey rt "lint" with
    | none =>
      have hL1 : getKey (setKey (setKey rt "target-version" (.str "py37"))
          "line-length" (.int 95)) "lint" = none := by
        rw [getKey_setKey_ne _ _ _ _ (by decide), getKey_setKey_ne _ _ _ _ (by decide)]
        exact hL
      have hHasL1 : hasKey (setKey (setKey rt "target-version" (.str "py37"))
          "line-length" (.int 95)) "lint" = false := by
        simp [hasKey, hL1]
      refine ⟨setKey docR "tool" (.table (setKey t "ruff" (.table (setKey
        (setKey (setKey (setKey rt "target-version" (.str "py37")) "line-length" (.int 95))
          "lint" (.table []))
        "lint" (.table (setKey (setKey [] "select" ruffSelectVal) "ignore" ruffIgnoreVal)))))),
        ?_, ?_, ?_, ?_, ?_⟩
      · simp [ruffApply, checkRuffKeys, checkLintKeys, hHasTool, hTool, hHasRuff, hRuff, hHasL1, getKey_setKey_self]
      · simp [getValueAt, getTableAt, getKey_setKey_self,
          getKey_setKey_ne _ _ _ _ (by decide : ("target-version" : String) ≠ "lint"),
          getKey_setKey_ne _ _ _ _ (by decide : ("target-version" : String) ≠ "line-length"),
          getKey_setKey_self]
      · simp [getValueAt, getTableAt, getKey_setKey_self,
          getKey_setKey_ne _ _ _ _ (by decide : ("line-length" : String) ≠ "lint"),
          getKey_setKey_self]
      · simp [getValueAt, getTableAt, getKey_setKey_self,
          getKey_setKey_ne _ _ _ _ (by decide : ("select" : String) ≠ "ignore"),
          getKey_setKey_self]
      · simp [getValueAt, getTableAt, getKey_setKey_self]
    | some v =>
      cases v with
      | str s => rw [hL] at hwfLint; simp at hwfLint
      | int n => rw [hL] at hwfLint; simp at hwfLint
      | bool b => rw [hL] at hwfLint; simp at hwfLint
      | arr l => rw [hL] at hwfLint; simp at hwfLint
      | table lt =>
        have hL1 : getKey (setKey (setKey rt "target-version" (.str "py37"))
            "line-length" (.int 95)) "lint" = some (.table lt) := by
          rw [getKey_setKey_ne _ _ _ _ (by decide), getKey_setKey_ne _ _ _ _ (by decide)]
          exact hL
        have hHasL1 : hasKey (setKey (setKey rt "target-version" (.str "py37"))
            "line-length" (.int 95)) "lint" = true := by
          simp [hasKey, hL1]
        refine ⟨setKey docR "tool" (.table (setKey t "ruff" (.table (setKey
          (setKey (setKey rt "target-version" (.str "py37")) "line-length" (.int 95))
          "lint" (.table (setKey (setKey lt "select" ruffSelectVal) "ignore" ruffIgnoreVal)))))),
          ?_, ?_, ?_, ?_, ?_⟩
        · simp [ruffApply, checkRuffKeys, checkLintKeys, hHasTool, hTool, hHasRuff, hRuff, hHasL1, hL1]
        · simp [getValueAt, getTableAt, getKey_setKey_self,
            getKey_setKey_ne _ _ _ _ (by decide : ("target-version" : String) ≠ "lint"),
            getKey_setKey_ne _ _ _ _ (by decide : ("target-version" : String) ≠ "line-length"),
            getKey_setKey_self]
        · simp [getValueAt, getTableAt, getKey_setKey_self,
            getKey_setKey_ne _ _ _ _ (by decide : ("line-length" : String) ≠ "lint"),
            getKey_setKey_self]
        · simp [getValueAt, getTableAt, getKey_setKey_self,
            getKey_setKey_ne _ _ _ _ (by decide : ("select" : String) ≠ "ignore"),
            getKey_setKey_self]
        · simp [getValueAt, getTableAt, getKey_setKey_self]
  obtain ⟨tI, hToolI, hIs⟩ := keyPresentAt_cons_elim _ _ _ _ hconfI
  rw [keyPresentAt_nil] at hIs
  have hHasToolI : hasKey docI "tool" = true := by simp [hasKey, hToolI]
  have hIErr : isortApply false (some docI) = .error (.valueError isortConflictMsg) := by
    simp [isortApply, hHasToolI, hToolI, hIs]
  refine ⟨hErr, hPersist, hFor, hIErr, ?_, ?_⟩
  · simp [isortPersisted, hIErr]
  · refine ⟨setKey docI "tool" (.table (setKey tI "isort" isortVal)), ?_, ?_⟩
    · simp [isortApply, hHasToolI, hToolI]
    · simp [getValueAt, getTableAt, getKey_setKey_self]

/-- Witness for the amended C3: a document whose `tool.ruff` already
carries `line-length` (with no `tool.ruff.lint` value, so the forced
overwrite applies), and a document whose `tool` already carries `isort`. -/
theorem config_conflict_requires_force_concrete :
    (∃ path sect k, (path, sect, k) ∈ ruffTargets ∧
       keyPresentAt [("tool", .table [("ruff", .table [("line-length", .int 80)])])] path k
         = true ∧
       (ruffApply false
           (some [("tool", .table [("ruff", .table [("line-length", .int 80)])])])).1 =
         .error (.valueError (ruffConflictMsg sect k))) ∧
    ruffPersisted false
        (some [("tool", .table [("ruff", .table [("line-length", .int 80)])])]) =
      some [("tool", .table [("ruff", .table [("line-length", .int 80)])])] ∧
    (∃ d, (ruffApply true
           (some [("tool", .table [("ruff", .table [("line-length", .int 80)])])])).1 =
         .ok d ∧
       getValueAt d ["tool", "ruff"] "target-version" = some (.str "py37") ∧
       getValueAt d ["tool", "ruff"] "line-length" = some (.int 95) ∧
       getValueAt d ["tool", "ruff", "lint"] "select" = some ruffSelectVal ∧
       getValueAt d ["tool", "ruff", "lint"] "ignore" = some ruffIgnoreVal) ∧
    isortApply false (some [("tool", .table [("isort", .table [])])]) =
      .error (.valueError isortConflictMsg) ∧
    isortPersisted false (some [("tool", .table [("isort", .table [])])]) =
      some [("tool", .table [("isort", .table [])])] ∧
    (∃ d, isortApply true (some [("tool", .table [("isort", .table [])])]) = .ok d ∧
       getValueAt d ["tool"] "isort" = some isortVal) :=
  let h := config_conflict_requires_force
    [("tool", .table [("ruff", .table [("line-length", .int 80)])])]
    [("tool", .table [("isort", .table [])])]
    (Or.inr (Or.inl (by rfl))) (by rfl)
  ⟨h.1, h.2.1, h.2.2.1 (by rfl), h.2.2.2.1, h.2.2.2.2.1, h.2.2.2.2.2⟩

/-! ## C4: check/write ordering inside one ruff run -/

/-- Whether, in a trace, no in-memory key write precedes a later conflict
check — the ordering the claim asserts for the call's entire key set. -/
def noCheckAfterSet : List Ev → Bool
  | [] => true
  | e :: rest => if e.isSetk then rest.all (fun x => !x.isCheck) else noCheckAfterSet rest

/-- Document refuting C4 as stated: `tool.ruff` exists without the
`tool.ruff` target keys, but `tool.ruff.lint.select` is already set. -/
def c4CexDoc : Doc :=
  [("tool", .table [("ruff", .table [("lint", .table [("select", .str "old")])])])]

/-- C4 counterexample: on `c4CexDoc` with forced=false, the ruff call writes
the `tool.ruff` keys into the document (in memory, source lines 42-43)
before the conflict checks on the `tool.ruff.lint` keys (lines 44-54) run,
so conflict detection for the call's entire key set does not precede every
key write of the call. -/
theorem ruff_checks_do_not_all_precede_writes :
    noCheckAfterSet (ruffApply false (some c4CexDoc)).2 = false ∧
    (ruffApply false (some c4CexDoc)).2 =
      [.check "tool.ruff" "target-version", .check "tool.ruff" "line-length",
       .setk "tool.ruff" "target-version", .setk "tool.ruff" "line-length",
       .check "tool.ruff.lint" "select"] ∧
    (ruffApply false (some c4CexDoc)).1 =
      .error (.valueError (ruffConflictMsg "tool.ruff.lint" "select")) :=
  ⟨rfl, rfl, rfl⟩

/-- The trace of the `tool.ruff` key checks consists of check events only. -/
theorem checkRuffKeys_trace (forced : Bool) (t : Doc) :
    (checkRuffKeys forced t).2.all Ev.isCheck = true := by
  unfold checkRuffKeys
  repeat' split
  all_goals rfl

/-- The trace of the `tool.ruff.lint` key checks consists of check events
only. -/
theorem checkLintKeys_trace (forced : Bool) (t : Doc) :
    (checkLintKeys forced t).2.all Ev.isCheck = true := by
  unfold checkLintKeys
  repeat' split
  all_goals rfl

/-- An event list of check events only carries no persist event. -/
theorem no_persist_of_all_check {tr : List Ev} (h : tr.all Ev.isCheck = true) :
    Ev.persist ∉ tr := by
  intro hmem
  have h2 := List.all_eq_true.mp h _ hmem
  simp [Ev.isCheck] at h2

/-- The last element of a list is a member of it. -/
theorem mem_of_getLast?_eq {α : Type} {l : List α} {a : α}
    (h : l.getLast? = some a) : a ∈ l := by
  induction l with
  | nil => simp at h
  | cons x xs ih =>
    cases xs with
    | nil =>
      simp [List.getLast?] at h
      simp [h]
    | cons y ys =>
      rw [List.getLast?_cons_cons] at h
      exact List.mem_cons_of_mem _ (ih h)

/-- The C4 target property, packaged for an erroring run: with no persist
event in the trace, the run neither succeeds nor ends in a persist. -/
theorem trace_conclusion {res : Except PErr Doc} {tr : List Ev}
    (herr : ∀ d, res ≠ .ok d) (hnp : Ev.persist ∉ tr) :
    ((∃ d, res = .ok d) ↔ tr.getLast? = some Ev.persist) ∧
      Ev.persist ∉ tr.dropLast := by
  refine ⟨⟨?_, ?_⟩, ?_⟩
  · rintro ⟨d, hd⟩
    exact absurd hd (herr d)
  · intro hg
    exact absurd (mem_of_getLast?_eq hg) hnp
  · intro hm
    exact hnp (List.mem_of_mem_dropLast hm)

/-- The C4 target property, packaged for a succeeding run whose trace is a
persist-free prefix followed by the single persist event. -/
theorem trace_conclusion_ok (pre : List Ev) {res : Except PErr Doc} {d0 : Doc}
    {tr : List Ev}
    (hres : res = .ok d0) (hsh : tr = pre ++ [Ev.persist]) (hnp : Ev.persist ∉ pre) :
    ((∃ d, res = .ok d) ↔ tr.getLast? = some Ev.persist) ∧
      Ev.persist ∉ tr.dropLast := by
  subst hsh
  refine ⟨⟨?_, ?_⟩, ?_⟩
  · intro _
    exact List.getLast?_concat pre
  · intro _
    exact ⟨d0, hres⟩
  · rw [List.dropLast_concat]
    exact hnp

/-- C4 amended: for every ruff call, the write to the persisted document is
a single event that happens only when the whole call succeeds and only as
the call's final action — in particular after every conflict check of the
call, so a conflict on any key of the call's key set aborts before anything
is persisted (though in-memory writes of the `tool.ruff` keys do precede
the `tool.ruff.lint` conflict checks, per the counterexample). -/
theorem ruff_persist_after_all_checks (forced : Bool) (file : Option Doc) :
    ((∃ d, (ruffApply forced file).1 = Except.ok d) ↔
      (ruffApply forced file).2.getLast? = some Ev.persist) ∧
    Ev.persist ∉ (ruffApply forced file).2.dropLast := by
  cases file with
  | none => exact trace_conclusion (by simp [ruffApply]) (by simp [ruffApply])
  | some doc0 =>
    simp only [ruffApply]
    split
    next tool0 heqT =>
      rcases hc1 : checkRuffKeys forced tool0 with ⟨r1, tr1⟩
      have htr1 := checkRuffKeys_trace forced tool0
      rw [hc1] at htr1
      have hnp1 : Ev.persist ∉ tr1 := no_persist_of_all_check htr1
      try simp only [hc1]
      rcases r1 with e1 | u1
      · exact trace_conclusion (by simp) hnp1
      · dsimp only
        split
        next rt0 heqR =>
          rcases hc2 : checkLintKeys forced
              (setKey (setKey rt0 "target-version" (.str "py37")) "line-length" (.int 95))
            with ⟨r2, trL⟩
          have htrL := checkLintKeys_trace forced
            (setKey (setKey rt0 "target-version" (.str "py37")) "line-length" (.int 95))
          rw [hc2] at htrL
          have hnpL : Ev.persist ∉ trL := no_persist_of_all_check htrL
          try simp only [hc2]
          rcases r2 with e2 | u2
          · exact trace_conclusion (by simp) (by simp [hnp1, hnpL])
          · dsimp only
            split
            next lt0 heqL =>
              refine trace_conclusion_ok
                ((tr1 ++ [Ev.setk "tool.ruff" "target-version",
                    Ev.setk "tool.ruff" "line-length"]) ++
                  (trL ++ [Ev.setk "tool.ruff.lint" "select",
                    Ev.setk "tool.ruff.lint" "ignore"]))
                rfl (by simp) (by simp [hnp1, hnpL])
            next heqL =>
              exact trace_conclusion (by simp) (by simp [hnp1, hnpL])
        next heqR =>
          exact trace_conclusion (by simp) hnp1
    next heqT =>
      exact trace_conclusion (by simp) (by simp)

/-- Witness for the amended C4 at a concrete successful run. -/
theorem ruff_persist_after_all_checks_concrete :
    ((∃ d, (ruffApply false (some [])).1 = Except.ok d) ↔
      (ruffApply false (some [])).2.getLast? = some Ev.persist) ∧
    Ev.persist ∉ (ruffApply false (some [])).2.dropLast :=
  ruff_persist_after_all_checks false (some [])

/-! ## C5: ruff on an empty document -/

/-- C5: running `pyproject ruff` with forced=false on an empty document (no
`tool` key) succeeds and the persisted document's `tool.ruff` section
carries `line-length = 95`, the spec scenario's observable. -/
theorem ruff_empty_doc_sets_line_length :
    ((ruffApply false (some [])).1.toOption.bind
      (fun d => getValueAt d ["tool", "ruff"] "line-length")) = some (.int 95) := by
  rfl

/-! ## C6: the test command with only_failed and no targets -/

/-- C6: invoking the test command with only_failed=true and no file_or_dir
argument builds a pytest argv that contains the `--lf` flag and ends with
the default test location `tests`, for every choice of the remaining
options. -/
theorem test_only_failed_targets_tests (parallel coverage : Bool)
    (coverageReport : Option (List CovReport)) (coverageOnly : Option (List CovPath)) :
    ∃ pre, testCli none parallel true coverage coverageReport coverageOnly =
        .ran (pre ++ ["tests"]) ∧ "--lf" ∈ pre := by
  refine ⟨["pytest", "-vv"] ++
    (if parallel then ["-n", "auto", "--dist", "loadfile"] else []) ++ ["--lf"] ++
    testSegCov coverage coverageReport coverageOnly, ?_, ?_⟩
  · simp [testCli, testCmd]
  · simp

/-! ## C9: coverage_only is ignored when coverage is requested -/

/-- C9: whenever coverage=true or a coverage_report is supplied together
with a nonempty coverage_only list, the coverage_only paths are ignored:
the built argv equals the one built with no coverage_only at all, and it
contains `--cov=src`. -/
theorem coverage_only_ignored_when_cov (fileOrDir : Option (List String))
    (parallel onlyFailed coverage : Bool) (coverageReport : Option (List CovReport))
    (covs : List CovPath)
    (hcov : coverage = true ∨ coverageReport ≠ none) (hne : covs ≠ []) :
    testCli fileOrDir parallel onlyFailed coverage coverageReport (some covs) =
      testCli fileOrDir parallel onlyFailed coverage coverageReport none ∧
    "--cov=src" ∈ testCmd fileOrDir parallel onlyFailed coverage coverageReport (some covs) := by
  have hcb : (coverage || coverageReport.isSome) = true := by
    rcases hcov with h | h
    · simp [h]
    · simp [Option.isSome_iff_ne_none, h]
  rcases Bool.or_eq_true_iff.mp hcb with h | h
  · constructor
    · simp [testCli, testCmd, testSegCov, h]
    · simp [testCmd, testSegCov, h]
  · constructor
    · simp [testCli, testCmd, testSegCov, h]
    · simp [testCmd, testSegCov, h]

/-- Witness for C9: coverage requested together with one coverage_only
file path. -/
theorem coverage_only_ignored_when_cov_concrete :
    testCli none false false true none (some [⟨["src", "mod.py"], true⟩]) =
      testCli none false false true none none ∧
    "--cov=src" ∈ testCmd none false false true none (some [⟨["src", "mod.py"], true⟩]) :=
  coverage_only_ignored_when_cov none false false true none [⟨["src", "mod.py"], true⟩]
    (Or.inl rfl) (by decide)

/-! ## C7: missing config files and the flake8 show-default shortcut -/

/-- A file system on which only the packaged flake8 default config exists. -/
def fsOnlyPackagedFlake8 : String → Bool := fun s => s == flake8DefaultConfig

/-- C7 counterexample: the flake8 command invoked with
show_default_config=true and an explicit config path that does not exist
returns 0 after printing the packaged default config — it neither fails
with an error nor checks the effective config file, refuting the claim that
every operation with a nonexistent effective configuration file fails with
an error. -/
theorem flake8_show_default_skips_config_check :
    flake8Cli (some "custom.cfg") none true fsOnlyPackagedFlake8 = .returned 0 ∧
    fsOnlyPackagedFlake8 "custom.cfg" = false ∧
    (flake8Cli (some "custom.cfg") none true fsOnlyPackagedFlake8).isErr = false ∧
    (flake8Cli (some "custom.cfg") none true fsOnlyPackagedFlake8).isRan = false :=
  ⟨rfl, rfl, rfl, rfl⟩

/-- C7 amended: when the effective configuration file (the explicit one, or
the default after substitution) does not exist, the ruff, isort and mypy
commands, and the flake8 command with show_default_config=false, fail
immediately with the missing-file ValueError and never reach run_command;
flake8 with show_default_config=true instead returns 0 (or fails reading
the packaged default) without consulting the effective config and without
spawning any process. -/
theorem missing_config_aborts_before_spawn (fs : String → Bool) (config : Option String) :
    (∀ fix showConfig, fs (config.getD "pyproject.toml") = false →
       ruffCli fix config showConfig fs =
         .err (missingFileMsg (config.getD "pyproject.toml"))) ∧
    (∀ check showConfig, fs (config.getD "pyproject.toml") = false →
       isortCli check config showConfig fs =
         .err (missingFileMsg (config.getD "pyproject.toml"))) ∧
    (∀ strict pyqt5 pyqt6 pyside2 pyside6 fileOrDir testsHasPy,
       fs (config.getD "pyproject.toml") = false →
       mypyCli config strict pyqt5 pyqt6 pyside2 pyside6 fileOrDir fs testsHasPy =
         .err (missingFileMsg (config.getD "pyproject.toml"))) ∧
    (∀ appendConfig, fs (config.getD flake8DefaultConfig) = false →
       flake8Cli config appendConfig false fs =
         .err (missingFileMsg (config.getD flake8DefaultConfig))) ∧
    (∀ appendConfig, (flake8Cli config appendConfig true fs).isRan = false) := by
  refine ⟨?_, ?_, ?_, ?_, ?_⟩
  · intro fix showConfig h
    simp [ruffCli, h]
  · intro check showConfig h
    simp [isortCli, h]
  · intro strict pyqt5 pyqt6 pyside2 pyside6 fileOrDir testsHasPy h
    simp [mypyCli, h]
  · intro appendConfig h
    simp [flake8Cli, h]
  · intro appendConfig
    by_cases h : fs flake8DefaultConfig = true
    · simp [flake8Cli, h, Outcome.isRan]
    · simp [flake8Cli, h, Outcome.isRan]

/-- Witness for the amended C7 on a file system with no files at all (and,
for the flake8 show branch, the packaged-default-only file system). -/
theorem missing_config_aborts_before_spawn_concrete :
    ruffCli false none false (fun _ => false) = .err (missingFileMsg "pyproject.toml") ∧
    isortCli false none false (fun _ => false) = .err (missingFileMsg "pyproject.toml") ∧
    mypyCli none none true false false false none (fun _ => false) false =
      .err (missingFileMsg "pyproject.toml") ∧
    flake8Cli none none false (fun _ => false) =
      .err (missingFileMsg flake8DefaultConfig) ∧
    (flake8Cli none none true (fun _ => false)).isRan = false :=
  ⟨(missing_config_aborts_before_spawn (fun _ => false) none).1 false false rfl,
   (missing_config_aborts_before_spawn (fun _ => false) none).2.1 false false rfl,
   (missing_config_aborts_before_spawn (fun _ => false) none).2.2.1
     none true false false false none false rfl,
   (missing_config_aborts_before_spawn (fun _ => false) none).2.2.2.1 none rfl,
   (missing_config_aborts_before_spawn (fun _ => false) none).2.2.2.2 none⟩

/-! ## C8: run_command status propagation -/

/-- C8 counterexample: with the default with_exit=true and a child exiting
with status 1, run_command does not return the status to its caller — it
raises `typer.Exit(1)` (modelled `.error 1`), refuting "returns the child's
exit status unmodified to its caller" as universally stated. -/
theorem run_command_nonzero_raises :
    runCommand true 1 = .error 1 ∧ runCommand true 1 ≠ .ok 1 :=
  ⟨rfl, fun h => Except.noConfusion h⟩

/-- C8 amended: run_command propagates the terminated child's exit status
unmodified — returning it when with_exit is false or the status is zero,
and raising `typer.Exit` carrying that same status when with_exit is true
and the status is nonzero.  (`sp.run` blocking until termination is
modelled by the child's final status being the function's input.) -/
theorem run_command_propagates_status (withExit : Bool) (s : Int) :
    carriedStatus (runCommand withExit s) = s ∧
    ((withExit = false ∨ s = 0) → runCommand withExit s = .ok s) ∧
    (withExit = true → s ≠ 0 → runCommand withExit s = .error s) := by
  refine ⟨?_, ?_, ?_⟩
  · unfold runCommand
    split <;> rfl
  · rintro (h | h)
    · simp [runCommand, h]
    · simp [runCommand, h]
  · intro h1 h2
    simp [runCommand, h1, h2]

/-- Witness for the amended C8 at concrete statuses 3 (raised) and 7
(returned). -/
theorem run_command_propagates_status_concrete :
    carriedStatus (runCommand true 3) = 3 ∧ runCommand false 7 = .ok 7 ∧
    runCommand true 3 = .error 3 :=
  ⟨(run_command_propagates_status true 3).1,
   (run_command_propagates_status false 7).2.1 (Or.inl rfl),
   (run_command_propagates_status true 3).2.2 rfl (by decide)⟩

/-! ## C10: the mypy config mutation is never forced -/

/-- C10: the `pyproject mypy` command (which takes no force flag) fails with
its conflict ValueError whenever the loaded document already has a `mypy`
key under `tool`, and also whenever the top-level `tool` table has an
`overrides` key — its second conflict check inspects `tool`, not
`tool.mypy` — and in every such failure the backing file is never
written. -/
theorem mypy_config_conflicts_unforced (doc : Doc)
    (hconf : keyPresentAt doc ["tool"] "mypy" = true ∨
             keyPresentAt doc ["tool"] "overrides" = true) :
    mypyApply (some doc) = .error (.valueError mypyConflictMsg) ∧
    mypyPersisted (some doc) = some doc := by
  obtain ⟨t, hTool, hk⟩ : ∃ t, getKey doc "tool" = some (.table t) ∧
      (hasKey t "mypy" = true ∨ hasKey t "overrides" = true) := by
    rcases hconf with h | h
    · obtain ⟨t, hTool, h⟩ := keyPresentAt_cons_elim _ _ _ _ h
      rw [keyPresentAt_nil] at h
      exact ⟨t, hTool, Or.inl h⟩
    · obtain ⟨t, hTool, h⟩ := keyPresentAt_cons_elim _ _ _ _ h
      rw [keyPresentAt_nil] at h
      exact ⟨t, hTool, Or.inr h⟩
  have hHasTool : hasKey doc "tool" = true := by simp [hasKey, hTool]
  have hmain : mypyApply (some doc) = .error (.valueError mypyConflictMsg) := by
    cases hm : hasKey t "mypy" with
    | true => simp [mypyApply, hHasTool, hTool, hm]
    | false =>
      have hov : hasKey t "overrides" = true := by
        rcases hk with h | h
        · rw [hm] at h; simp at h
        · exact h
      have hov1 : hasKey (setKey t "mypy" (.table [])) "overrides" = true := by
        rw [hasKey_setKey_ne _ _ _ _ (by decide)]
        exact hov
      simp [mypyApply, hHasTool, hTool, hm, hov1]
  exact ⟨hmain, by simp [mypyPersisted, hmain]⟩

/-- Witness for C10 on a document with `tool.overrides` but no `tool.mypy`:
the quirky second check still aborts the command. -/
theorem mypy_config_conflicts_unforced_concrete :
    mypyApply (some [("tool", .table [("overrides", .str "x")])]) =
      .error (.valueError mypyConflictMsg) ∧
    mypyPersisted (some [("tool", .table [("overrides", .str "x")])]) =
      some [("tool", .table [("overrides", .str "x")])] :=
  mypy_config_conflicts_unforced [("tool", .table [("overrides", .str "x")])]
    (Or.inr (by rfl))

end Maestro
